import Mathlib

/-! # Map tile cache data (QGCMapEngineData.h)


A shallow embedding of the tile records and of the task classes declared in
`src/QtLocationPlugin/QGCMapEngineData.h`, followed by theorems about them.

Conventions of the embedding:

* `qulonglong` / `quint64` are the unsigned 64-bit integers, `int` the signed
  32-bit integers; the header performs no arithmetic on them.
* `QString` is `String`, `QByteArray` a list of bytes.
* A Qt signal emission (`emit sig(args)`) is recorded by appending the signal,
  with its arguments, to the `emitted` trace carried by the task (oldest first).
* A pointer to an object of a class defined in the header is an `Option` of
  that object (`none` is the null pointer); a pointer to the forward-declared
  `QGCCachedTileSet` is an address.
* Where the identity of tile objects matters (the copy constructor), the tile
  objects live in a store and are named by their address.
-/

/-- The C++ type `qulonglong` (and `quint64`): an unsigned 64-bit integer. -/
abbrev qulonglong : Type := Fin 18446744073709551616

/-- The constant `UINT64_MAX`, 2^64 - 1. -/
def UINT64_MAX : qulonglong := ⟨18446744073709551615, by decide⟩

/-- The C++ type `int`: a signed 32-bit integer. -/
abbrev int : Type := { i : Int // -2147483648 ≤ i ∧ i ≤ 2147483647 }

/-- The Qt type `QByteArray`: a sequence of bytes. -/
abbrev QByteArray : Type := List (Fin 256)

/-- The enumeration `UrlFactory::MapType`. It is declared in
`QGCMapUrlEngine.h`; a value is carried by its underlying integer, and the
enumerators a statement needs (such as `UrlFactory::Invalid`) are parameters. -/
structure UrlFactory.MapType where
  val : Int
deriving DecidableEq, Repr

/-- A `QGCCachedTileSet*`: the class is only forward-declared in the header, so
the pointer is an address that is never dereferenced. -/
structure QGCCachedTileSetPtr where
  addr : Nat
deriving DecidableEq, Repr

/-! ## QGCTile -/

/-- The enumeration `QGCTile::TyleState`. -/
inductive QGCTile.TyleState where
  | StatePending
  | StateDownloading
  | StateError
  | StateComplete
deriving DecidableEq, Repr, Fintype

/-- The integer value of a `TyleState` enumerator (`StatePending = 0`, the
others counting up). -/
def QGCTile.TyleState.toInt : QGCTile.TyleState → Int
  | .StatePending => 0
  | .StateDownloading => 1
  | .StateError => 2
  | .StateComplete => 3

/-- The data members of class `QGCTile`. -/
structure QGCTile where
  _x : int
  _y : int
  _z : int
  _set : qulonglong
  _hash : String
  _type : UrlFactory.MapType
deriving DecidableEq, Repr

/-- The default constructor `QGCTile()`; `Invalid` is `UrlFactory::Invalid`.
`_hash` is not in the initialiser list: a default-constructed `QString`. -/
def QGCTile.new (Invalid : UrlFactory.MapType) : QGCTile :=
  { _x := ⟨0, by decide⟩
    _y := ⟨0, by decide⟩
    _z := ⟨0, by decide⟩
    _set := UINT64_MAX
    _hash := ""
    _type := Invalid }

def QGCTile.x (t : QGCTile) : int := t._x
def QGCTile.y (t : QGCTile) : int := t._y
def QGCTile.z (t : QGCTile) : int := t._z
def QGCTile.set (t : QGCTile) : qulonglong := t._set
def QGCTile.hash (t : QGCTile) : String := t._hash
def QGCTile.type (t : QGCTile) : UrlFactory.MapType := t._type

/-- The copy constructor `QGCTile(const QGCTile& other)`. -/
def QGCTile.copy (other : QGCTile) : QGCTile :=
  { _x := other.x
    _y := other.y
    _z := other.z
    _set := other.set
    _hash := other.hash
    _type := other.type }

def QGCTile.setX (t : QGCTile) (x : int) : QGCTile := { t with _x := x }
def QGCTile.setY (t : QGCTile) (y : int) : QGCTile := { t with _y := y }
def QGCTile.setZ (t : QGCTile) (z : int) : QGCTile := { t with _z := z }
def QGCTile.setTileSet (t : QGCTile) (set : qulonglong) : QGCTile := { t with _set := set }
def QGCTile.setHash (t : QGCTile) (hash : String) : QGCTile := { t with _hash := hash }
def QGCTile.setType (t : QGCTile) (type : UrlFactory.MapType) : QGCTile := { t with _type := type }

/-! ## QGCCacheTile -/

/-- The data members of class `QGCCacheTile`. -/
structure QGCCacheTile where
  _set : qulonglong
  _hash : String
  _img : QByteArray
  _format : String
  _type : UrlFactory.MapType
deriving DecidableEq, Repr

/-- The constructor `QGCCacheTile(hash, img, format, type, set = UINT64_MAX)`.
`set = none` is a call that omits the last argument, which then takes its
default value. -/
def QGCCacheTile.new (hash : String) (img : QByteArray) (format : String)
    (type : UrlFactory.MapType) (set : Option qulonglong) : QGCCacheTile :=
  { _set := set.getD UINT64_MAX
    _hash := hash
    _img := img
    _format := format
    _type := type }

/-- The constructor `QGCCacheTile(hash, set)`. `_img` and `_format` are not in
the initialiser list and are default-constructed (empty). `_type` is not
initialised either and, being an enumeration, keeps whatever the storage held:
that indeterminate value is the argument `uninit`. -/
def QGCCacheTile.newHashSet (hash : String) (set : qulonglong)
    (uninit : UrlFactory.MapType) : QGCCacheTile :=
  { _set := set
    _hash := hash
    _img := []
    _format := ""
    _type := uninit }

def QGCCacheTile.set (t : QGCCacheTile) : qulonglong := t._set
def QGCCacheTile.hash (t : QGCCacheTile) : String := t._hash
def QGCCacheTile.img (t : QGCCacheTile) : QByteArray := t._img
def QGCCacheTile.format (t : QGCCacheTile) : String := t._format
def QGCCacheTile.type (t : QGCCacheTile) : UrlFactory.MapType := t._type

/-! ## QGCMapTask and the signals of the task classes -/

/-- The enumeration `QGCMapTask::TaskType`. -/
inductive QGCMapTask.TaskType where
  | taskInit
  | taskCacheTile
  | taskFetchTile
  | taskFetchTileSets
  | taskCreateTileSet
  | taskGetTileDownloadList
  | taskUpdateTileDownloadState
  | taskDeleteTileSet
  | taskPruneCache
  | taskReset
deriving DecidableEq, Repr, Fintype

/-- The signals declared by the task classes, each with its arguments:
`error` by `QGCMapTask`, the others by one derived class each. -/
inductive Signal where
  | error (type : QGCMapTask.TaskType) (errorString : String)
  | tileSetFetched (tileSet : QGCCachedTileSetPtr)
  | tileSetSaved (tileSet : QGCCachedTileSetPtr)
  | tileFetched (tile : Option QGCCacheTile)
  | tileListFetched (tiles : List (Option QGCTile))
  | tileSetDeleted (setID : qulonglong)
  | pruned
  | resetCompleted
deriving DecidableEq, Repr

/-- The data member of class `QGCMapTask`, and the trace of the signals the
object has emitted so far (oldest first). -/
structure QGCMapTask where
  _type : QGCMapTask.TaskType
  emitted : List Signal
deriving DecidableEq, Repr

/-- The constructor `QGCMapTask(TaskType type)`. -/
def QGCMapTask.new (type : QGCMapTask.TaskType) : QGCMapTask :=
  { _type := type, emitted := [] }

def QGCMapTask.type (t : QGCMapTask) : QGCMapTask.TaskType := t._type

/-- The statement `emit s`: the signal is appended to the trace. -/
def QGCMapTask.emit (t : QGCMapTask) (s : Signal) : QGCMapTask :=
  { t with emitted := t.emitted ++ [s] }

/-- The method `void setError(QString errorString)`. -/
def QGCMapTask.setError (t : QGCMapTask) (errorString : String) : QGCMapTask :=
  t.emit (Signal.error t._type errorString)

/-! ## The derived task classes -/

/-- Class `QGCFetchTileSetTask`. -/
structure QGCFetchTileSetTask extends QGCMapTask
deriving DecidableEq, Repr

def QGCFetchTileSetTask.new : QGCFetchTileSetTask :=
  { toQGCMapTask := QGCMapTask.new QGCMapTask.TaskType.taskFetchTileSets }

def QGCFetchTileSetTask.setTileSetFetched (t : QGCFetchTileSetTask)
    (tileSet : QGCCachedTileSetPtr) : QGCFetchTileSetTask :=
  { t with toQGCMapTask := t.toQGCMapTask.emit (Signal.tileSetFetched tileSet) }

/-- The inherited `setError`. -/
def QGCFetchTileSetTask.setError (t : QGCFetchTileSetTask) (errorString : String) :
    QGCFetchTileSetTask :=
  { t with toQGCMapTask := t.toQGCMapTask.setError errorString }

/-- Class `QGCCreateTileSetTask`. -/
structure QGCCreateTileSetTask extends QGCMapTask where
  _tileSet : QGCCachedTileSetPtr
  _saved : Bool
deriving DecidableEq, Repr

def QGCCreateTileSetTask.new (tileSet : QGCCachedTileSetPtr) : QGCCreateTileSetTask :=
  { toQGCMapTask := QGCMapTask.new QGCMapTask.TaskType.taskCreateTileSet
    _tileSet := tileSet
    _saved := false }

def QGCCreateTileSetTask.tileSet (t : QGCCreateTileSetTask) : QGCCachedTileSetPtr := t._tileSet

/-- The method `setTileSetSaved()`: flags the task as saved, then emits
`tileSetSaved(_tileSet)`. -/
def QGCCreateTileSetTask.setTileSetSaved (t : QGCCreateTileSetTask) : QGCCreateTileSetTask :=
  { t with
    _saved := true
    toQGCMapTask := t.toQGCMapTask.emit (Signal.tileSetSaved t._tileSet) }

/-- The inherited `setError`. -/
def QGCCreateTileSetTask.setError (t : QGCCreateTileSetTask) (errorString : String) :
    QGCCreateTileSetTask :=
  { t with toQGCMapTask := t.toQGCMapTask.setError errorString }

/-- Class `QGCFetchTileTask`. -/
structure QGCFetchTileTask extends QGCMapTask where
  _hash : String
deriving DecidableEq, Repr

def QGCFetchTileTask.new (hash : String) : QGCFetchTileTask :=
  { toQGCMapTask := QGCMapTask.new QGCMapTask.TaskType.taskFetchTile
    _hash := hash }

def QGCFetchTileTask.setTileFetched (t : QGCFetchTileTask) (tile : Option QGCCacheTile) :
    QGCFetchTileTask :=
  { t with toQGCMapTask := t.toQGCMapTask.emit (Signal.tileFetched tile) }

def QGCFetchTileTask.hash (t : QGCFetchTileTask) : String := t._hash

/-- The inherited `setError`. -/
def QGCFetchTileTask.setError (t : QGCFetchTileTask) (errorString : String) :
    QGCFetchTileTask :=
  { t with toQGCMapTask := t.toQGCMapTask.setError errorString }

/-- Class `QGCSaveTileTask`. -/
structure QGCSaveTileTask extends QGCMapTask where
  _tile : Option QGCCacheTile
deriving DecidableEq, Repr

def QGCSaveTileTask.new (tile : Option QGCCacheTile) : QGCSaveTileTask :=
  { toQGCMapTask := QGCMapTask.new QGCMapTask.TaskType.taskCacheTile
    _tile := tile }

/-- The destructor `~QGCSaveTileTask()`: `if(_tile) delete _tile;`. The result
lists the objects that are deleted. -/
def QGCSaveTileTask.destroy (t : QGCSaveTileTask) : List QGCCacheTile :=
  match t._tile with
  | some tile => [tile]
  | none => []

def QGCSaveTileTask.tile (t : QGCSaveTileTask) : Option QGCCacheTile := t._tile

/-- The inherited `setError`. -/
def QGCSaveTileTask.setError (t : QGCSaveTileTask) (errorString : String) :
    QGCSaveTileTask :=
  { t with toQGCMapTask := t.toQGCMapTask.setError errorString }

/-- Class `QGCGetTileDownloadListTask`. -/
structure QGCGetTileDownloadListTask extends QGCMapTask where
  _setID : qulonglong
  _count : int
deriving DecidableEq, Repr

def QGCGetTileDownloadListTask.new (setID : qulonglong) (count : int) :
    QGCGetTileDownloadListTask :=
  { toQGCMapTask := QGCMapTask.new QGCMapTask.TaskType.taskGetTileDownloadList
    _setID := setID
    _count := count }

def QGCGetTileDownloadListTask.setID (t : QGCGetTileDownloadListTask) : qulonglong := t._setID
def QGCGetTileDownloadListTask.count (t : QGCGetTileDownloadListTask) : int := t._count

def QGCGetTileDownloadListTask.setTileListFetched (t : QGCGetTileDownloadListTask)
    (tiles : List (Option QGCTile)) : QGCGetTileDownloadListTask :=
  { t with toQGCMapTask := t.toQGCMapTask.emit (Signal.tileListFetched tiles) }

/-- The inherited `setError`. -/
def QGCGetTileDownloadListTask.setError (t : QGCGetTileDownloadListTask)
    (errorString : String) : QGCGetTileDownloadListTask :=
  { t with toQGCMapTask := t.toQGCMapTask.setError errorString }

/-- Class `QGCUpdateTileDownloadStateTask`. -/
structure QGCUpdateTileDownloadStateTask extends QGCMapTask where
  _setID : qulonglong
  _state : QGCTile.TyleState
  _hash : String
deriving DecidableEq, Repr

def QGCUpdateTileDownloadStateTask.new (setID : qulonglong) (state : QGCTile.TyleState)
    (hash : String) : QGCUpdateTileDownloadStateTask :=
  { toQGCMapTask := QGCMapTask.new QGCMapTask.TaskType.taskUpdateTileDownloadState
    _setID := setID
    _state := state
    _hash := hash }

def QGCUpdateTileDownloadStateTask.hash (t : QGCUpdateTileDownloadStateTask) : String := t._hash
def QGCUpdateTileDownloadStateTask.setID (t : QGCUpdateTileDownloadStateTask) : qulonglong :=
  t._setID
def QGCUpdateTileDownloadStateTask.state (t : QGCUpdateTileDownloadStateTask) :
    QGCTile.TyleState := t._state

/-- The inherited `setError`. -/
def QGCUpdateTileDownloadStateTask.setError (t : QGCUpdateTileDownloadStateTask)
    (errorString : String) : QGCUpdateTileDownloadStateTask :=
  { t with toQGCMapTask := t.toQGCMapTask.setError errorString }

/-- Class `QGCDeleteTileSetTask`. -/
structure QGCDeleteTileSetTask extends QGCMapTask where
  _setID : qulonglong
deriving DecidableEq, Repr

def QGCDeleteTileSetTask.new (setID : qulonglong) : QGCDeleteTileSetTask :=
  { toQGCMapTask := QGCMapTask.new QGCMapTask.TaskType.taskDeleteTileSet
    _setID := setID }

def QGCDeleteTileSetTask.setID (t : QGCDeleteTileSetTask) : qulonglong := t._setID

def QGCDeleteTileSetTask.setTileSetDeleted (t : QGCDeleteTileSetTask) : QGCDeleteTileSetTask :=
  { t with toQGCMapTask := t.toQGCMapTask.emit (Signal.tileSetDeleted t._setID) }

/-- The inherited `setError`. -/
def QGCDeleteTileSetTask.setError (t : QGCDeleteTileSetTask) (errorString : String) :
    QGCDeleteTileSetTask :=
  { t with toQGCMapTask := t.toQGCMapTask.setError errorString }

/-- Class `QGCPruneCacheTask`. -/
structure QGCPruneCacheTask extends QGCMapTask where
  _amount : qulonglong
deriving DecidableEq, Repr

def QGCPruneCacheTask.new (amount : qulonglong) : QGCPruneCacheTask :=
  { toQGCMapTask := QGCMapTask.new QGCMapTask.TaskType.taskPruneCache
    _amount := amount }

def QGCPruneCacheTask.amount (t : QGCPruneCacheTask) : qulonglong := t._amount

def QGCPruneCacheTask.setPruned (t : QGCPruneCacheTask) : QGCPruneCacheTask :=
  { t with toQGCMapTask := t.toQGCMapTask.emit Signal.pruned }

/-- The inherited `setError`. -/
def QGCPruneCacheTask.setError (t : QGCPruneCacheTask) (errorString : String) :
    QGCPruneCacheTask :=
  { t with toQGCMapTask := t.toQGCMapTask.setError errorString }

/-- Class `QGCResetTask`. -/
structure QGCResetTask extends QGCMapTask
deriving DecidableEq, Repr

def QGCResetTask.new : QGCResetTask :=
  { toQGCMapTask := QGCMapTask.new QGCMapTask.TaskType.taskReset }

def QGCResetTask.setResetCompleted (t : QGCResetTask) : QGCResetTask :=
  { t with toQGCMapTask := t.toQGCMapTask.emit Signal.resetCompleted }

/-- The inherited `setError`. -/
def QGCResetTask.setError (t : QGCResetTask) (errorString : String) : QGCResetTask :=
  { t with toQGCMapTask := t.toQGCMapTask.setError errorString }

/-! ## Task objects of any class, and sequences of method calls on them -/

/-- A task object of any of the classes of the header: a plain `QGCMapTask`
(the base class is not abstract) or an object of one of the nine derived
classes. -/
inductive AnyTask where
  | mapTask (t : QGCMapTask)
  | fetchTileSet (t : QGCFetchTileSetTask)
  | createTileSet (t : QGCCreateTileSetTask)
  | fetchTile (t : QGCFetchTileTask)
  | saveTile (t : QGCSaveTileTask)
  | getTileDownloadList (t : QGCGetTileDownloadListTask)
  | updateTileDownloadState (t : QGCUpdateTileDownloadStateTask)
  | deleteTileSet (t : QGCDeleteTileSetTask)
  | pruneCache (t : QGCPruneCacheTask)
  | reset (t : QGCResetTask)
deriving DecidableEq, Repr

/-- The `QGCMapTask` sub-object of a task. -/
def AnyTask.base : AnyTask → QGCMapTask
  | .mapTask t => t
  | .fetchTileSet t => t.toQGCMapTask
  | .createTileSet t => t.toQGCMapTask
  | .fetchTile t => t.toQGCMapTask
  | .saveTile t => t.toQGCMapTask
  | .getTileDownloadList t => t.toQGCMapTask
  | .updateTileDownloadState t => t.toQGCMapTask
  | .deleteTileSet t => t.toQGCMapTask
  | .pruneCache t => t.toQGCMapTask
  | .reset t => t.toQGCMapTask

/-- The virtual method `type()`; no derived class overrides it. -/
def AnyTask.type (t : AnyTask) : QGCMapTask.TaskType := t.base.type

/-- The signals the task has emitted so far. -/
def AnyTask.emitted (t : AnyTask) : List Signal := t.base.emitted

/-- The inherited method `setError`, on a task of any class. -/
def AnyTask.setError (errorString : String) : AnyTask → AnyTask
  | .mapTask t => .mapTask (t.setError errorString)
  | .fetchTileSet t => .fetchTileSet (t.setError errorString)
  | .createTileSet t => .createTileSet (t.setError errorString)
  | .fetchTile t => .fetchTile (t.setError errorString)
  | .saveTile t => .saveTile (t.setError errorString)
  | .getTileDownloadList t => .getTileDownloadList (t.setError errorString)
  | .updateTileDownloadState t => .updateTileDownloadState (t.setError errorString)
  | .deleteTileSet t => .deleteTileSet (t.setError errorString)
  | .pruneCache t => .pruneCache (t.setError errorString)
  | .reset t => .reset (t.setError errorString)

/-- A call of one of the reporting methods, with its arguments. -/
inductive Call where
  | setError (errorString : String)
  | setTileSetFetched (tileSet : QGCCachedTileSetPtr)
  | setTileSetSaved
  | setTileFetched (tile : Option QGCCacheTile)
  | setTileListFetched (tiles : List (Option QGCTile))
  | setTileSetDeleted
  | setPruned
  | setResetCompleted
deriving DecidableEq, Repr

/-- Whether the class of the task has the called method: `setError` is
inherited by every class, every other method belongs to one derived class. -/
def AnyTask.declares : AnyTask → Call → Bool
  | _, .setError _ => true
  | .fetchTileSet _, .setTileSetFetched _ => true
  | .createTileSet _, .setTileSetSaved => true
  | .fetchTile _, .setTileFetched _ => true
  | .getTileDownloadList _, .setTileListFetched _ => true
  | .deleteTileSet _, .setTileSetDeleted => true
  | .pruneCache _, .setPruned => true
  | .reset _, .setResetCompleted => true
  | _, _ => false

/-- One method call on a task; `none` when the class of the task does not have
the method. -/
def AnyTask.call : AnyTask → Call → Option AnyTask
  | t, .setError errorString => some (t.setError errorString)
  | .fetchTileSet t, .setTileSetFetched tileSet => some (.fetchTileSet (t.setTileSetFetched tileSet))
  | .createTileSet t, .setTileSetSaved => some (.createTileSet t.setTileSetSaved)
  | .fetchTile t, .setTileFetched tile => some (.fetchTile (t.setTileFetched tile))
  | .getTileDownloadList t, .setTileListFetched tiles =>
      some (.getTileDownloadList (t.setTileListFetched tiles))
  | .deleteTileSet t, .setTileSetDeleted => some (.deleteTileSet t.setTileSetDeleted)
  | .pruneCache t, .setPruned => some (.pruneCache t.setPruned)
  | .reset t, .setResetCompleted => some (.reset t.setResetCompleted)
  | _, _ => none

/-- A sequence of method calls on a task, in order. -/
def AnyTask.run : AnyTask → List Call → Option AnyTask
  | t, [] => some t
  | t, c :: cs => (t.call c).bind (fun t1 => t1.run cs)

/-- A constructor call of one of the task classes, with its arguments. -/
inductive Ctor where
  | QGCMapTask (type : QGCMapTask.TaskType)
  | QGCFetchTileSetTask
  | QGCCreateTileSetTask (tileSet : QGCCachedTileSetPtr)
  | QGCFetchTileTask (hash : String)
  | QGCSaveTileTask (tile : Option QGCCacheTile)
  | QGCGetTileDownloadListTask (setID : qulonglong) (count : int)
  | QGCUpdateTileDownloadStateTask (setID : qulonglong) (state : QGCTile.TyleState)
      (hash : String)
  | QGCDeleteTileSetTask (setID : qulonglong)
  | QGCPruneCacheTask (amount : qulonglong)
  | QGCResetTask
deriving DecidableEq, Repr

/-- The object a constructor call builds. -/
def Ctor.construct : Ctor → AnyTask
  | .QGCMapTask type => .mapTask (QGCMapTask.new type)
  | .QGCFetchTileSetTask => .fetchTileSet QGCFetchTileSetTask.new
  | .QGCCreateTileSetTask tileSet => .createTileSet (QGCCreateTileSetTask.new tileSet)
  | .QGCFetchTileTask hash => .fetchTile (QGCFetchTileTask.new hash)
  | .QGCSaveTileTask tile => .saveTile (QGCSaveTileTask.new tile)
  | .QGCGetTileDownloadListTask setID count =>
      .getTileDownloadList (QGCGetTileDownloadListTask.new setID count)
  | .QGCUpdateTileDownloadStateTask setID state hash =>
      .updateTileDownloadState (QGCUpdateTileDownloadStateTask.new setID state hash)
  | .QGCDeleteTileSetTask setID => .deleteTileSet (QGCDeleteTileSetTask.new setID)
  | .QGCPruneCacheTask amount => .pruneCache (QGCPruneCacheTask.new amount)
  | .QGCResetTask => .reset QGCResetTask.new

/-- The nine derived task classes. -/
inductive Variant where
  | FetchTileSet
  | CreateTileSet
  | FetchTile
  | SaveTile
  | GetTileDownloadList
  | UpdateTileDownloadState
  | DeleteTileSet
  | PruneCache
  | Reset
deriving DecidableEq, Repr, Fintype

/-- The derived class a task object belongs to; `none` for a plain
`QGCMapTask`. -/
def AnyTask.variant : AnyTask → Option Variant
  | .mapTask _ => none
  | .fetchTileSet _ => some .FetchTileSet
  | .createTileSet _ => some .CreateTileSet
  | .fetchTile _ => some .FetchTile
  | .saveTile _ => some .SaveTile
  | .getTileDownloadList _ => some .GetTileDownloadList
  | .updateTileDownloadState _ => some .UpdateTileDownloadState
  | .deleteTileSet _ => some .DeleteTileSet
  | .pruneCache _ => some .PruneCache
  | .reset _ => some .Reset

/-! ## Properties of signal traces and call sequences -/

/-- The signal is the `error` signal. -/
def Signal.isError : Signal → Bool
  | .error _ _ => true
  | _ => false

/-- The signal is one of the seven success signals. -/
def Signal.isSuccess : Signal → Bool
  | .error _ _ => false
  | _ => true

/-- Some success signal occurs later in the trace than some `error` signal. -/
def successAfterError : List Signal → Bool
  | [] => false
  | s :: rest => (s.isError && rest.any Signal.isSuccess) || successAfterError rest

/-- The call is a call of `setError`. -/
def Call.isSetError : Call → Bool
  | .setError _ => true
  | _ => false

/-- The call is a call of one of the seven success-report methods. -/
def Call.isSuccessReport : Call → Bool
  | .setError _ => false
  | _ => true

/-- Some success-report call occurs later in the sequence than some `setError`
call. -/
def successReportAfterSetError : List Call → Bool
  | [] => false
  | c :: rest => (c.isSetError && rest.any Call.isSuccessReport) || successReportAfterSetError rest

/-- The signal a method call emits on a task whose class has the method. -/
def AnyTask.signalOf : AnyTask → Call → Option Signal
  | t, .setError errorString => some (.error t.type errorString)
  | .fetchTileSet _, .setTileSetFetched tileSet => some (.tileSetFetched tileSet)
  | .createTileSet t, .setTileSetSaved => some (.tileSetSaved t.tileSet)
  | .fetchTile _, .setTileFetched tile => some (.tileFetched tile)
  | .getTileDownloadList _, .setTileListFetched tiles => some (.tileListFetched tiles)
  | .deleteTileSet t, .setTileSetDeleted => some (.tileSetDeleted t.setID)
  | .pruneCache _, .setPruned => some .pruned
  | .reset _, .setResetCompleted => some .resetCompleted
  | _, _ => none

/-- The signals a sequence of method calls emits on a task whose class has all
the called methods. -/
def AnyTask.signalsOf (t : AnyTask) (calls : List Call) : List Signal :=
  calls.filterMap t.signalOf

/-! ## Sequences of setter calls on a tile -/

/-- A call of one of the six setters of `QGCTile`, with its argument. -/
inductive QGCTile.Setter where
  | setX (x : int)
  | setY (y : int)
  | setZ (z : int)
  | setTileSet (set : qulonglong)
  | setHash (hash : String)
  | setType (type : UrlFactory.MapType)
deriving DecidableEq, Repr

/-- One setter call on a tile. -/
def QGCTile.apply (t : QGCTile) : QGCTile.Setter → QGCTile
  | .setX x => t.setX x
  | .setY y => t.setY y
  | .setZ z => t.setZ z
  | .setTileSet set => t.setTileSet set
  | .setHash hash => t.setHash hash
  | .setType type => t.setType type

/-- A sequence of setter calls on a tile, in order. -/
def QGCTile.applyAll (t : QGCTile) (setters : List QGCTile.Setter) : QGCTile :=
  setters.foldl QGCTile.apply t

/-- The kind a constructor call hands to the `QGCMapTask` constructor: the
argument itself for a plain `QGCMapTask`, the enumerator written in the
initialiser list for each derived class. -/
def Ctor.kind : Ctor → QGCMapTask.TaskType
  | .QGCMapTask type => type
  | .QGCFetchTileSetTask => QGCMapTask.TaskType.taskFetchTileSets
  | .QGCCreateTileSetTask _ => QGCMapTask.TaskType.taskCreateTileSet
  | .QGCFetchTileTask _ => QGCMapTask.TaskType.taskFetchTile
  | .QGCSaveTileTask _ => QGCMapTask.TaskType.taskCacheTile
  | .QGCGetTileDownloadListTask _ _ => QGCMapTask.TaskType.taskGetTileDownloadList
  | .QGCUpdateTileDownloadStateTask _ _ _ => QGCMapTask.TaskType.taskUpdateTileDownloadState
  | .QGCDeleteTileSetTask _ => QGCMapTask.TaskType.taskDeleteTileSet
  | .QGCPruneCacheTask _ => QGCMapTask.TaskType.taskPruneCache
  | .QGCResetTask => QGCMapTask.TaskType.taskReset

/-! ## Tile objects in storage

Where the identity of tile objects matters (an object and its copy are two
objects), the live tile objects are kept in a store and named by their
address. -/

/-- The live `QGCTile` objects; the address of an object is its position. -/
abbrev TileStore : Type := List QGCTile

/-- The object at an address, if one lives there. -/
def TileStore.read (s : TileStore) (addr : Nat) : Option QGCTile := s[addr]?

/-- The copy constructor `QGCTile(const QGCTile& other)` run for a new object:
the members of the new object are initialised from the object at `other`,
which is only read, and the new object is placed in storage of its own. The
result is the store afterwards and the address of the new object; `none` when
no object lives at `other`. -/
def TileStore.copyConstruct (s : TileStore) (other : Nat) : Option (TileStore × Nat) :=
  match s.read other with
  | some o => some (s ++ [QGCTile.copy o], s.length)
  | none => none

/-- One setter call on the object at an address: the members of that object
are assigned, no other object is touched. `none` when no object lives at the
address. -/
def TileStore.callSetter (s : TileStore) (addr : Nat) (setter : QGCTile.Setter) :
    Option TileStore :=
  match s.read addr with
  | some o => some (s.set addr (o.apply setter))
  | none => none

/-- A sequence of setter calls on the object at an address, in order. -/
def TileStore.callSetters (s : TileStore) (addr : Nat) :
    List QGCTile.Setter → Option TileStore
  | [] => some s
  | setter :: rest => (s.callSetter addr setter).bind (fun s1 => s1.callSetters addr rest)

/-! ## General lemmas on method calls -/

/-- A method the class has can be called; the call appends exactly the signal
of the method to the trace and changes neither the kind, nor the class, nor
what later calls would emit. -/
theorem AnyTask.call_of_declares (t : AnyTask) (c : Call) (h : t.declares c = true) :
    ∃ t1 s, t.call c = some t1 ∧ t.signalOf c = some s ∧
      t1.emitted = t.emitted ++ [s] ∧ t1.type = t.type ∧ t1.variant = t.variant ∧
      t1.declares = t.declares ∧ t1.signalOf = t.signalOf := by
  cases t <;> cases c <;> first
    | (exfalso; revert h; simp [AnyTask.declares]; done)
    | (refine ⟨_, _, rfl, rfl, rfl, rfl, rfl, ?_, ?_⟩
       · funext c1; cases c1 <;> rfl
       · funext c1; cases c1 <;> rfl)

/-- A sequence of methods the class has can be called; the calls append their
signals to the trace, in order, and change neither the kind nor the class. -/
theorem AnyTask.run_of_declares (calls : List Call) :
    ∀ t : AnyTask, (∀ c ∈ calls, t.declares c = true) →
      ∃ t1, t.run calls = some t1 ∧ t1.emitted = t.emitted ++ t.signalsOf calls ∧
        t1.type = t.type ∧ t1.variant = t.variant ∧
        t1.declares = t.declares ∧ t1.signalOf = t.signalOf := by
  induction calls with
  | nil =>
    intro t _
    exact ⟨t, rfl, by simp [AnyTask.signalsOf], rfl, rfl, rfl, rfl⟩
  | cons c cs ih =>
    intro t h
    obtain ⟨t1, s, hcall, hsig, hem, hty, hvar, hdecl, hso⟩ :=
      AnyTask.call_of_declares t c (h c (List.mem_cons_self c cs))
    have hcs : ∀ c1 ∈ cs, t1.declares c1 = true := by
      intro c1 hc1
      rw [hdecl]
      exact h c1 (List.mem_cons_of_mem c hc1)
    obtain ⟨t2, hrun, hem2, hty2, hvar2, hdecl2, hso2⟩ := ih t1 hcs
    refine ⟨t2, ?_, ?_, hty2.trans hty, hvar2.trans hvar, hdecl2.trans hdecl, hso2.trans hso⟩
    · simp [AnyTask.run, hcall, hrun]
    · rw [hem2, hem]
      simp [AnyTask.signalsOf, List.filterMap_cons, hsig, hso]

/-! ## The error channel and the task kind -/

/-- C1: for every task kind `k` and message `m`, `setError(m)` on a task
constructed with kind `k` emits exactly one signal, `error(k, m)`, carrying the
kind of the task and the message unchanged. On a task of any class and in any
state, the call appends exactly one signal to the trace, `error` with the
task's own kind and the message, and leaves the signals emitted before in
place. -/
theorem setError_emits_error (k : QGCMapTask.TaskType) (m : String) :
    ((QGCMapTask.new k).setError m).emitted = [Signal.error k m] ∧
    (∀ t : QGCMapTask, (t.setError m).emitted = t.emitted ++ [Signal.error t.type m]) ∧
    (∀ t : AnyTask, (t.setError m).emitted = t.emitted ++ [Signal.error t.type m]) ∧
    (∀ c : Ctor, (c.construct.setError m).emitted = [Signal.error c.construct.type m]) := by
  refine ⟨rfl, fun _ => rfl, ?_, ?_⟩
  · intro t
    cases t <;> rfl
  · intro c
    cases c <;> rfl

/-- A freshly constructed task has the kind its constructor call hands to the
`QGCMapTask` constructor. -/
theorem Ctor.construct_type (c : Ctor) : c.construct.type = c.kind := by
  cases c <;> rfl

/-- C2: for every task, built by any constructor call, and every finite
sequence of calls of methods its class has (`setError` and the success-report
method of the class), the sequence runs and `type()` afterwards returns the
kind given at construction: the argument `k` for a plain `QGCMapTask(k)`, the
enumerator of the initialiser list for a derived class, which is also what
`type()` returned right after construction. -/
theorem type_unchanged_by_calls (c : Ctor) (calls : List Call)
    (h : ∀ call ∈ calls, c.construct.declares call = true) :
    ∃ t, c.construct.run calls = some t ∧ t.type = c.kind ∧
      c.construct.type = c.kind ∧ t.type = c.construct.type ∧
      (∀ k : QGCMapTask.TaskType, c = Ctor.QGCMapTask k → t.type = k) ∧
      (c = Ctor.QGCFetchTileSetTask → t.type = QGCMapTask.TaskType.taskFetchTileSets) ∧
      (∀ tileSet, c = Ctor.QGCCreateTileSetTask tileSet →
        t.type = QGCMapTask.TaskType.taskCreateTileSet) ∧
      (∀ hash, c = Ctor.QGCFetchTileTask hash → t.type = QGCMapTask.TaskType.taskFetchTile) ∧
      (∀ tile, c = Ctor.QGCSaveTileTask tile → t.type = QGCMapTask.TaskType.taskCacheTile) ∧
      (∀ setID count, c = Ctor.QGCGetTileDownloadListTask setID count →
        t.type = QGCMapTask.TaskType.taskGetTileDownloadList) ∧
      (∀ setID state hash, c = Ctor.QGCUpdateTileDownloadStateTask setID state hash →
        t.type = QGCMapTask.TaskType.taskUpdateTileDownloadState) ∧
      (∀ setID, c = Ctor.QGCDeleteTileSetTask setID →
        t.type = QGCMapTask.TaskType.taskDeleteTileSet) ∧
      (∀ amount, c = Ctor.QGCPruneCacheTask amount →
        t.type = QGCMapTask.TaskType.taskPruneCache) ∧
      (c = Ctor.QGCResetTask → t.type = QGCMapTask.TaskType.taskReset) := by
  obtain ⟨t, hrun, _, hty, _⟩ := AnyTask.run_of_declares calls c.construct h
  have hk := Ctor.construct_type c
  have hkind : t.type = c.kind := hty.trans hk
  refine ⟨t, hrun, hkind, hk, hty, ?_, ?_, ?_, ?_, ?_, ?_, ?_, ?_, ?_, ?_⟩ <;>
    (intros; subst c; exact hkind)

/-- C2 at concrete inputs: a prune task built with amount 7, then `setError`,
`setPruned`, `setError`, still has the kind `taskPruneCache`; a plain task
built with the kind `taskReset`, then `setError`, still has the kind
`taskReset`. -/
theorem type_unchanged_by_calls_witness :
    (∃ t, (Ctor.QGCPruneCacheTask 7).construct.run
        [Call.setError "disk", Call.setPruned, Call.setError "again"] = some t ∧
      t.type = QGCMapTask.TaskType.taskPruneCache) ∧
    (∃ t, (Ctor.QGCMapTask QGCMapTask.TaskType.taskReset).construct.run
        [Call.setError "disk"] = some t ∧
      t.type = QGCMapTask.TaskType.taskReset) := by
  constructor
  · obtain ⟨t, hrun, hty, _⟩ := type_unchanged_by_calls (Ctor.QGCPruneCacheTask 7)
      [Call.setError "disk", Call.setPruned, Call.setError "again"]
      (by
        intro call hcall
        simp only [List.mem_cons, List.mem_singleton, List.not_mem_nil, or_false] at hcall
        rcases hcall with rfl | rfl | rfl <;> rfl)
    exact ⟨t, hrun, hty⟩
  · obtain ⟨t, hrun, _, _, _, hk, _⟩ :=
      type_unchanged_by_calls (Ctor.QGCMapTask QGCMapTask.TaskType.taskReset)
        [Call.setError "disk"]
        (by
          intro call hcall
          simp only [List.mem_singleton] at hcall
          subst hcall
          rfl)
    exact ⟨t, hrun, hk QGCMapTask.TaskType.taskReset rfl⟩

/-- C3: each of the nine derived classes constructs its base with its own
fixed kind, whatever the constructor arguments; the nine kinds are pairwise
distinct and none is `taskInit`, so two objects of derived classes with the
same kind are of the same class; `TaskType` has exactly ten values. -/
theorem variant_kinds :
    QGCFetchTileSetTask.new.type = QGCMapTask.TaskType.taskFetchTileSets ∧
    (∀ tileSet, (QGCCreateTileSetTask.new tileSet).type = QGCMapTask.TaskType.taskCreateTileSet) ∧
    (∀ hash, (QGCFetchTileTask.new hash).type = QGCMapTask.TaskType.taskFetchTile) ∧
    (∀ tile, (QGCSaveTileTask.new tile).type = QGCMapTask.TaskType.taskCacheTile) ∧
    (∀ setID count, (QGCGetTileDownloadListTask.new setID count).type =
      QGCMapTask.TaskType.taskGetTileDownloadList) ∧
    (∀ setID state hash, (QGCUpdateTileDownloadStateTask.new setID state hash).type =
      QGCMapTask.TaskType.taskUpdateTileDownloadState) ∧
    (∀ setID, (QGCDeleteTileSetTask.new setID).type = QGCMapTask.TaskType.taskDeleteTileSet) ∧
    (∀ amount, (QGCPruneCacheTask.new amount).type = QGCMapTask.TaskType.taskPruneCache) ∧
    QGCResetTask.new.type = QGCMapTask.TaskType.taskReset ∧
    [QGCMapTask.TaskType.taskFetchTileSets, QGCMapTask.TaskType.taskCreateTileSet,
      QGCMapTask.TaskType.taskFetchTile, QGCMapTask.TaskType.taskCacheTile,
      QGCMapTask.TaskType.taskGetTileDownloadList,
      QGCMapTask.TaskType.taskUpdateTileDownloadState,
      QGCMapTask.TaskType.taskDeleteTileSet, QGCMapTask.TaskType.taskPruneCache,
      QGCMapTask.TaskType.taskReset].Nodup ∧
    (∀ c : Ctor, c.construct.variant ≠ none → c.construct.type ≠ QGCMapTask.TaskType.taskInit) ∧
    (∀ c1 c2 : Ctor, c1.construct.variant ≠ none → c2.construct.variant ≠ none →
      c1.construct.type = c2.construct.type → c1.construct.variant = c2.construct.variant) ∧
    Fintype.card QGCMapTask.TaskType = 10 := by
  refine ⟨rfl, fun _ => rfl, fun _ => rfl, fun _ => rfl, fun _ _ => rfl, fun _ _ _ => rfl,
    fun _ => rfl, fun _ => rfl, rfl, by decide, ?_, ?_, rfl⟩
  · intro c
    cases c <;> simp [Ctor.construct, AnyTask.variant, AnyTask.type, AnyTask.base,
      QGCMapTask.type, QGCMapTask.new, QGCFetchTileSetTask.new, QGCCreateTileSetTask.new,
      QGCFetchTileTask.new, QGCSaveTileTask.new, QGCGetTileDownloadListTask.new,
      QGCUpdateTileDownloadStateTask.new, QGCDeleteTileSetTask.new, QGCPruneCacheTask.new,
      QGCResetTask.new]
  · intro c1 c2
    cases c1 <;> cases c2 <;> simp [Ctor.construct, AnyTask.variant, AnyTask.type, AnyTask.base,
      QGCMapTask.type, QGCMapTask.new, QGCFetchTileSetTask.new, QGCCreateTileSetTask.new,
      QGCFetchTileTask.new, QGCSaveTileTask.new, QGCGetTileDownloadListTask.new,
      QGCUpdateTileDownloadStateTask.new, QGCDeleteTileSetTask.new, QGCPruneCacheTask.new,
      QGCResetTask.new]

/-- C3 at concrete inputs: a delete task and a prune task are built with
different kinds, and a delete task's kind is not `taskInit`. -/
theorem variant_kinds_witness :
    (Ctor.QGCDeleteTileSetTask 3).construct.type = QGCMapTask.TaskType.taskDeleteTileSet ∧
    (Ctor.QGCPruneCacheTask 3).construct.type = QGCMapTask.TaskType.taskPruneCache ∧
    (Ctor.QGCDeleteTileSetTask 3).construct.type ≠ QGCMapTask.TaskType.taskInit ∧
    (Ctor.QGCDeleteTileSetTask 3).construct.variant =
      (Ctor.QGCDeleteTileSetTask 4).construct.variant :=
  ⟨variant_kinds.2.2.2.2.2.2.1 3, variant_kinds.2.2.2.2.2.2.2.1 3,
    variant_kinds.2.2.2.2.2.2.2.2.2.2.1 (Ctor.QGCDeleteTileSetTask 3) (by simp [Ctor.construct, AnyTask.variant]),
    variant_kinds.2.2.2.2.2.2.2.2.2.2.2.1 (Ctor.QGCDeleteTileSetTask 3) (Ctor.QGCDeleteTileSetTask 4)
      (by simp [Ctor.construct, AnyTask.variant]) (by simp [Ctor.construct, AnyTask.variant]) rfl⟩

/-! ## The shape of the trace after a sequence of calls -/

/-- A freshly constructed task has emitted nothing. -/
theorem Ctor.construct_emitted (c : Ctor) : c.construct.emitted = [] := by
  cases c <;> rfl

/-- Method `setError` emits the `error` signal, every other method a success
signal. -/
theorem AnyTask.signalOf_kind (t : AnyTask) (c : Call) (s : Signal)
    (h : t.signalOf c = some s) :
    s.isError = c.isSetError ∧ s.isSuccess = c.isSuccessReport := by
  cases t <;> cases c <;> simp [AnyTask.signalOf] at h <;> subst h <;> exact ⟨rfl, rfl⟩

/-- The signals of a sequence of calls mirror the calls: as many of them, as
many success signals as success-report calls, as many `error` signals as
`setError` calls, and a success signal after an `error` signal exactly when a
success-report call comes after a `setError` call. -/
theorem AnyTask.signalsOf_mirror (t : AnyTask) (calls : List Call) :
    (∀ c ∈ calls, t.declares c = true) →
      (t.signalsOf calls).length = calls.length ∧
      (t.signalsOf calls).countP Signal.isSuccess = calls.countP Call.isSuccessReport ∧
      (t.signalsOf calls).countP Signal.isError = calls.countP Call.isSetError ∧
      (t.signalsOf calls).any Signal.isSuccess = calls.any Call.isSuccessReport ∧
      successAfterError (t.signalsOf calls) = successReportAfterSetError calls := by
  induction calls with
  | nil => intro _; exact ⟨rfl, rfl, rfl, rfl, rfl⟩
  | cons c cs ih =>
    intro h
    obtain ⟨_, s, _, hsig, _⟩ := AnyTask.call_of_declares t c (h c (List.mem_cons_self c cs))
    obtain ⟨hlen, hsucc, herr, hany, hafter⟩ :=
      ih (fun c1 hc1 => h c1 (List.mem_cons_of_mem c hc1))
    obtain ⟨hE, hS⟩ := AnyTask.signalOf_kind t c s hsig
    have hcons : t.signalsOf (c :: cs) = s :: t.signalsOf cs := by
      simp [AnyTask.signalsOf, List.filterMap_cons, hsig]
    rw [hcons]
    refine ⟨by simp [hlen], ?_, ?_, ?_, ?_⟩
    · simp [List.countP_cons, hsucc, hS]
    · simp [List.countP_cons, herr, hE]
    · simp only [List.any_cons, hany, hS]
    · simp only [successAfterError, successReportAfterSetError, hany, hafter, hE]

/-! ## Success and error notifications -/

/-- C4, as stated, fails: a prune task on which `setError` and then
`setPruned` are called emits `error` and then `pruned`, a success signal after
an error signal. -/
theorem success_after_error_counterexample :
    ((Ctor.QGCPruneCacheTask 0).construct.run
        [Call.setError "failed", Call.setPruned]).map AnyTask.emitted =
      some [Signal.error QGCMapTask.TaskType.taskPruneCache "failed", Signal.pruned] ∧
    successAfterError
      [Signal.error QGCMapTask.TaskType.taskPruneCache "failed", Signal.pruned] = true :=
  ⟨rfl, rfl⟩

/-- C4, amended: the task classes do not block a success report after
`setError`. For every task and every sequence of calls of its reporting
methods, every call emits its signal, so the trace has one signal per call in
call order, and a success signal follows an `error` signal in the trace
exactly when a success-report call follows a `setError` call in the sequence.
In particular no success signal follows an `error` signal when the caller
makes no success-report call after `setError`. -/
theorem success_after_error_iff_called (c : Ctor) (calls : List Call)
    (h : ∀ call ∈ calls, c.construct.declares call = true) :
    ∃ t, c.construct.run calls = some t ∧
      t.emitted = c.construct.signalsOf calls ∧
      t.emitted.length = calls.length ∧
      successAfterError t.emitted = successReportAfterSetError calls ∧
      (successReportAfterSetError calls = false → successAfterError t.emitted = false) := by
  obtain ⟨t, hrun, hem, _⟩ := AnyTask.run_of_declares calls c.construct h
  obtain ⟨hlen, _, _, _, hafter⟩ := AnyTask.signalsOf_mirror c.construct calls h
  rw [Ctor.construct_emitted, List.nil_append] at hem
  refine ⟨t, hrun, hem, ?_, ?_, ?_⟩
  · rw [hem, hlen]
  · rw [hem, hafter]
  · intro h0
    rw [hem, hafter, h0]

/-- C4, amended, at a concrete input: a delete task that reports success and
then an error has no success signal after the error signal. -/
theorem success_after_error_iff_called_witness :
    ∃ t, (Ctor.QGCDeleteTileSetTask 5).construct.run
        [Call.setTileSetDeleted, Call.setError "late"] = some t ∧
      t.emitted = (Ctor.QGCDeleteTileSetTask 5).construct.signalsOf
        [Call.setTileSetDeleted, Call.setError "late"] ∧
      t.emitted.length = [Call.setTileSetDeleted, Call.setError "late"].length ∧
      successAfterError t.emitted =
        successReportAfterSetError [Call.setTileSetDeleted, Call.setError "late"] ∧
      (successReportAfterSetError [Call.setTileSetDeleted, Call.setError "late"] = false →
        successAfterError t.emitted = false) :=
  success_after_error_iff_called (Ctor.QGCDeleteTileSetTask 5)
    [Call.setTileSetDeleted, Call.setError "late"]
    (by
      intro call hcall
      simp only [List.mem_cons, List.mem_singleton, List.not_mem_nil, or_false] at hcall
      rcases hcall with rfl | rfl <;> rfl)

/-- C5, as stated, fails: a create-tile-set task on which `setTileSetSaved` is
called twice emits `tileSetSaved` twice, and a delete task on which
`setTileSetDeleted` and then `setError` are called emits both a success signal
and an error signal. Neither task is a fetch-tile-sets task. -/
theorem one_terminal_notification_counterexample :
    ((Ctor.QGCCreateTileSetTask ⟨1⟩).construct.run
        [Call.setTileSetSaved, Call.setTileSetSaved]).map AnyTask.emitted =
      some [Signal.tileSetSaved ⟨1⟩, Signal.tileSetSaved ⟨1⟩] ∧
    [Signal.tileSetSaved ⟨1⟩, Signal.tileSetSaved ⟨1⟩].countP Signal.isSuccess = 2 ∧
    (Ctor.QGCCreateTileSetTask ⟨1⟩).construct.variant = some Variant.CreateTileSet ∧
    ((Ctor.QGCDeleteTileSetTask 9).construct.run
        [Call.setTileSetDeleted, Call.setError "gone"]).map AnyTask.emitted =
      some [Signal.tileSetDeleted 9,
        Signal.error QGCMapTask.TaskType.taskDeleteTileSet "gone"] ∧
    [Signal.tileSetDeleted 9,
      Signal.error QGCMapTask.TaskType.taskDeleteTileSet "gone"].any Signal.isSuccess = true ∧
    [Signal.tileSetDeleted 9,
      Signal.error QGCMapTask.TaskType.taskDeleteTileSet "gone"].any Signal.isError = true ∧
    (Ctor.QGCDeleteTileSetTask 9).construct.variant = some Variant.DeleteTileSet :=
  ⟨rfl, rfl, rfl, rfl, rfl, rfl, rfl⟩

/-- C5, amended: the task classes do not limit the number of notifications.
For every task of any class and every sequence of calls of its reporting
methods, the trace holds exactly one success signal per success-report call
and one `error` signal per `setError` call. So the trace holds at most one
success signal when at most one success-report call is made, and not both a
success and an `error` signal when the caller does not make both kinds of
call; a task that receives exactly one reporting call emits exactly one
signal. -/
theorem notifications_mirror_calls (c : Ctor) (calls : List Call)
    (h : ∀ call ∈ calls, c.construct.declares call = true) :
    ∃ t, c.construct.run calls = some t ∧
      t.emitted.countP Signal.isSuccess = calls.countP Call.isSuccessReport ∧
      t.emitted.countP Signal.isError = calls.countP Call.isSetError ∧
      (calls.countP Call.isSuccessReport ≤ 1 → t.emitted.countP Signal.isSuccess ≤ 1) ∧
      (calls.countP Call.isSuccessReport = 0 ∨ calls.countP Call.isSetError = 0 →
        t.emitted.countP Signal.isSuccess = 0 ∨ t.emitted.countP Signal.isError = 0) ∧
      (calls.length = 1 → t.emitted.length = 1) := by
  obtain ⟨t, hrun, hem, _⟩ := AnyTask.run_of_declares calls c.construct h
  obtain ⟨hlen, hsucc, herr, _, _⟩ := AnyTask.signalsOf_mirror c.construct calls h
  rw [Ctor.construct_emitted, List.nil_append] at hem
  refine ⟨t, hrun, ?_, ?_, ?_, ?_, ?_⟩
  · rw [hem, hsucc]
  · rw [hem, herr]
  · rw [hem, hsucc]; exact id
  · rw [hem, hsucc, herr]; exact id
  · rw [hem, hlen]; exact id

/-- C5, amended, at a concrete input: a create-tile-set task that receives the
single call `setTileSetSaved`. -/
theorem notifications_mirror_calls_witness :
    ∃ t, (Ctor.QGCCreateTileSetTask ⟨1⟩).construct.run [Call.setTileSetSaved] = some t ∧
      t.emitted.countP Signal.isSuccess = [Call.setTileSetSaved].countP Call.isSuccessReport ∧
      t.emitted.countP Signal.isError = [Call.setTileSetSaved].countP Call.isSetError ∧
      ([Call.setTileSetSaved].countP Call.isSuccessReport ≤ 1 →
        t.emitted.countP Signal.isSuccess ≤ 1) ∧
      ([Call.setTileSetSaved].countP Call.isSuccessReport = 0 ∨
          [Call.setTileSetSaved].countP Call.isSetError = 0 →
        t.emitted.countP Signal.isSuccess = 0 ∨ t.emitted.countP Signal.isError = 0) ∧
      ([Call.setTileSetSaved].length = 1 → t.emitted.length = 1) :=
  notifications_mirror_calls (Ctor.QGCCreateTileSetTask ⟨1⟩) [Call.setTileSetSaved]
    (by
      intro call hcall
      simp only [List.mem_singleton] at hcall
      subst hcall
      rfl)

/-! ## The success reports of the single classes -/

/-- Calling `setTileSetFetched` on each reference of a list, in order, appends
one `tileSetFetched` signal per reference, in the same order. -/
theorem QGCFetchTileSetTask.foldl_setTileSetFetched (sets : List QGCCachedTileSetPtr) :
    ∀ t : QGCFetchTileSetTask,
      (sets.foldl QGCFetchTileSetTask.setTileSetFetched t).emitted =
        t.emitted ++ sets.map Signal.tileSetFetched := by
  induction sets with
  | nil => intro t; simp
  | cons s rest ih =>
    intro t
    rw [List.foldl_cons, ih]
    simp [QGCFetchTileSetTask.setTileSetFetched, QGCMapTask.emit]

/-- C6: on a fetch-tile-sets task, calling `setTileSetFetched(s1)`, ...,
`setTileSetFetched(sn)` in that order emits exactly `n` signals, the `i`-th
being `tileSetFetched(si)`; with `n = 0` nothing is emitted. The channel is
multi-shot: in any state of the task a further call appends a further
signal. -/
theorem setTileSetFetched_multi_shot (sets : List QGCCachedTileSetPtr) :
    (sets.foldl QGCFetchTileSetTask.setTileSetFetched QGCFetchTileSetTask.new).emitted =
      sets.map Signal.tileSetFetched ∧
    (sets.foldl QGCFetchTileSetTask.setTileSetFetched QGCFetchTileSetTask.new).emitted.length =
      sets.length ∧
    (∀ i : Nat,
      (sets.foldl QGCFetchTileSetTask.setTileSetFetched QGCFetchTileSetTask.new).emitted[i]? =
        sets[i]?.map Signal.tileSetFetched) ∧
    (([] : List QGCCachedTileSetPtr).foldl QGCFetchTileSetTask.setTileSetFetched
      QGCFetchTileSetTask.new).emitted = [] ∧
    (∀ (t : QGCFetchTileSetTask) (s : QGCCachedTileSetPtr),
      (t.setTileSetFetched s).emitted = t.emitted ++ [Signal.tileSetFetched s]) := by
  have hnew : QGCFetchTileSetTask.new.emitted = [] := rfl
  have hall := QGCFetchTileSetTask.foldl_setTileSetFetched sets QGCFetchTileSetTask.new
  rw [hnew, List.nil_append] at hall
  refine ⟨hall, ?_, ?_, rfl, fun _ _ => rfl⟩
  · rw [hall, List.length_map]
  · intro i
    rw [hall, List.getElem?_map]

/-- C7: a create-tile-set task built with the reference `s` has its saved flag
clear and `tileSet()` equal to `s`; `setTileSetSaved()`, in any state of the
task, sets the flag, emits `tileSetSaved` with the reference `tileSet()`
returns (on the fresh task: exactly `s`) and leaves `tileSet()` as it was;
`setError` changes neither the flag nor `tileSet()`. -/
theorem createTileSet_saved_flag (s : QGCCachedTileSetPtr) :
    (QGCCreateTileSetTask.new s)._saved = false ∧
    (QGCCreateTileSetTask.new s).tileSet = s ∧
    (QGCCreateTileSetTask.new s).setTileSetSaved._saved = true ∧
    (QGCCreateTileSetTask.new s).setTileSetSaved.emitted = [Signal.tileSetSaved s] ∧
    (∀ t : QGCCreateTileSetTask,
      t.setTileSetSaved._saved = true ∧
      t.setTileSetSaved.emitted = t.emitted ++ [Signal.tileSetSaved t.tileSet] ∧
      t.setTileSetSaved.tileSet = t.tileSet) ∧
    (∀ (t : QGCCreateTileSetTask) (m : String),
      (t.setError m)._saved = t._saved ∧ (t.setError m).tileSet = t.tileSet) ∧
    (∀ m : String,
      ((QGCCreateTileSetTask.new s).setError m)._saved = false ∧
      ((QGCCreateTileSetTask.new s).setError m).setTileSetSaved.emitted =
        [Signal.error QGCMapTask.TaskType.taskCreateTileSet m, Signal.tileSetSaved s]) :=
  ⟨rfl, rfl, rfl, rfl, fun _ => ⟨rfl, rfl, rfl⟩, fun _ _ => ⟨rfl, rfl⟩, fun _ => ⟨rfl, rfl⟩⟩

/-- C8: a delete task built with the 64-bit set id `i` (the sentinel 2^64-1
included), after any sequence of calls of its methods, still has
`setID() = i`, and `setTileSetDeleted()` then appends `tileSetDeleted(i)` to
the trace and leaves `setID()` at `i`. -/
theorem tileSetDeleted_echoes_id (i : qulonglong) (calls : List Call)
    (h : ∀ call ∈ calls, (Ctor.QGCDeleteTileSetTask i).construct.declares call = true) :
    ∃ t : QGCDeleteTileSetTask,
      (Ctor.QGCDeleteTileSetTask i).construct.run calls = some (AnyTask.deleteTileSet t) ∧
      t.setID = i ∧
      t.setTileSetDeleted.emitted = t.emitted ++ [Signal.tileSetDeleted i] ∧
      t.setTileSetDeleted.setID = i ∧
      (QGCDeleteTileSetTask.new i).setID = i ∧
      UINT64_MAX.val = 2 ^ 64 - 1 := by
  obtain ⟨t1, hrun, _, _, hvar, _, hso⟩ :=
    AnyTask.run_of_declares calls (Ctor.QGCDeleteTileSetTask i).construct h
  cases t1 with
  | deleteTileSet t =>
    have hid : t.setID = i := by
      have h1 := congrFun hso Call.setTileSetDeleted
      simpa [AnyTask.signalOf, Ctor.construct, QGCDeleteTileSetTask.setID,
        QGCDeleteTileSetTask.new] using h1
    refine ⟨t, hrun, hid, ?_, hid, rfl, by decide⟩
    rw [← hid]
    rfl
  | _ => simp [Ctor.construct, AnyTask.variant] at hvar

/-- C8 at a concrete input: the sentinel id, with `setError` and an earlier
`setTileSetDeleted` before the call. -/
theorem tileSetDeleted_echoes_id_witness :
    ∃ t : QGCDeleteTileSetTask,
      (Ctor.QGCDeleteTileSetTask UINT64_MAX).construct.run
        [Call.setError "busy", Call.setTileSetDeleted] = some (AnyTask.deleteTileSet t) ∧
      t.setID = UINT64_MAX ∧
      t.setTileSetDeleted.emitted = t.emitted ++ [Signal.tileSetDeleted UINT64_MAX] ∧
      t.setTileSetDeleted.setID = UINT64_MAX ∧
      (QGCDeleteTileSetTask.new UINT64_MAX).setID = UINT64_MAX ∧
      UINT64_MAX.val = 2 ^ 64 - 1 :=
  tileSetDeleted_echoes_id UINT64_MAX [Call.setError "busy", Call.setTileSetDeleted]
    (by
      intro call hcall
      simp only [List.mem_cons, List.mem_singleton, List.not_mem_nil, or_false] at hcall
      rcases hcall with rfl | rfl <;> rfl)

/-- C9, as stated, fails: a download-list task built with count 1 that is
given a list of two tiles emits `tileListFetched` with both tiles, a list
longer than the requested count. -/
theorem tileListFetched_bound_counterexample :
    ((QGCGetTileDownloadListTask.new 42 ⟨1, by decide⟩).setTileListFetched
        [some ((QGCTile.new ⟨0⟩).setX ⟨10, by decide⟩),
          some ((QGCTile.new ⟨0⟩).setX ⟨11, by decide⟩)]).emitted =
      [Signal.tileListFetched
        [some ((QGCTile.new ⟨0⟩).setX ⟨10, by decide⟩),
          some ((QGCTile.new ⟨0⟩).setX ⟨11, by decide⟩)]] ∧
    (QGCGetTileDownloadListTask.new 42 ⟨1, by decide⟩).count.val = 1 ∧
    ¬ ((([some ((QGCTile.new ⟨0⟩).setX ⟨10, by decide⟩),
          some ((QGCTile.new ⟨0⟩).setX ⟨11, by decide⟩)] : List (Option QGCTile)).length : Int) ≤
        (QGCGetTileDownloadListTask.new 42 ⟨1, by decide⟩).count.val) :=
  ⟨rfl, rfl, by decide⟩

/-- C9, amended: the task carries the requested count but neither checks nor
truncates the list. For every download-list task built with `(setID, count)`
and every tile list, `setTileListFetched` emits `tileListFetched` with exactly
the list it is given, whatever its length, and leaves `count()` as it was. So
the list carried by the emitted signal has length at most `count` whenever the
list passed to `setTileListFetched` has, and exceeds `count` whenever the list
passed does. -/
theorem tileListFetched_bound_of_input (setID : qulonglong) (count : int)
    (tiles : List (Option QGCTile)) :
    ((QGCGetTileDownloadListTask.new setID count).setTileListFetched tiles).emitted =
      [Signal.tileListFetched tiles] ∧
    ((QGCGetTileDownloadListTask.new setID count).setTileListFetched tiles).count = count ∧
    (∀ l, Signal.tileListFetched l ∈
        ((QGCGetTileDownloadListTask.new setID count).setTileListFetched tiles).emitted →
      l = tiles) ∧
    ((tiles.length : Int) ≤ count.val →
      ∀ l, Signal.tileListFetched l ∈
          ((QGCGetTileDownloadListTask.new setID count).setTileListFetched tiles).emitted →
        (l.length : Int) ≤ count.val) ∧
    (count.val < (tiles.length : Int) →
      ∀ l, Signal.tileListFetched l ∈
          ((QGCGetTileDownloadListTask.new setID count).setTileListFetched tiles).emitted →
        count.val < (l.length : Int)) := by
  have hem : ((QGCGetTileDownloadListTask.new setID count).setTileListFetched tiles).emitted =
      [Signal.tileListFetched tiles] := rfl
  have hsame : ∀ l, Signal.tileListFetched l ∈
      ((QGCGetTileDownloadListTask.new setID count).setTileListFetched tiles).emitted →
      l = tiles := by
    intro l hl
    rw [hem, List.mem_singleton] at hl
    injection hl
  refine ⟨hem, rfl, hsame, ?_, ?_⟩
  · intro h l hl
    rw [hsame l hl]
    exact h
  · intro h l hl
    rw [hsame l hl]
    exact h

/-- C9, amended, at concrete inputs: with count 2 a list of one tile is
emitted as it is and within the count; with count 1 a list of two tiles is
emitted as it is and exceeds the count. -/
theorem tileListFetched_bound_of_input_witness :
    (∀ l, Signal.tileListFetched l ∈
        ((QGCGetTileDownloadListTask.new 42 ⟨2, by decide⟩).setTileListFetched
          [some (QGCTile.new ⟨0⟩)]).emitted →
      l = [some (QGCTile.new ⟨0⟩)] ∧ (l.length : Int) ≤ 2) ∧
    (∀ l, Signal.tileListFetched l ∈
        ((QGCGetTileDownloadListTask.new 42 ⟨1, by decide⟩).setTileListFetched
          [some ((QGCTile.new ⟨0⟩).setX ⟨10, by decide⟩),
            some ((QGCTile.new ⟨0⟩).setX ⟨11, by decide⟩)]).emitted →
      l = [some ((QGCTile.new ⟨0⟩).setX ⟨10, by decide⟩),
            some ((QGCTile.new ⟨0⟩).setX ⟨11, by decide⟩)] ∧ (1 : Int) < (l.length : Int)) :=
  ⟨fun l hl =>
      ⟨(tileListFetched_bound_of_input 42 ⟨2, by decide⟩ [some (QGCTile.new ⟨0⟩)]).2.2.1 l hl,
        (tileListFetched_bound_of_input 42 ⟨2, by decide⟩ [some (QGCTile.new ⟨0⟩)]).2.2.2.1
          (by decide) l hl⟩,
    fun l hl =>
      ⟨(tileListFetched_bound_of_input 42 ⟨1, by decide⟩
          [some ((QGCTile.new ⟨0⟩).setX ⟨10, by decide⟩),
            some ((QGCTile.new ⟨0⟩).setX ⟨11, by decide⟩)]).2.2.1 l hl,
        (tileListFetched_bound_of_input 42 ⟨1, by decide⟩
          [some ((QGCTile.new ⟨0⟩).setX ⟨10, by decide⟩),
            some ((QGCTile.new ⟨0⟩).setX ⟨11, by decide⟩)]).2.2.2.2 (by decide) l hl⟩⟩

/-! ## Cache tiles carried by a save task -/

/-- C10: a cache tile built by the full-payload constructor from
`(h, b, f, t, s)` and handed to a save task is carried unchanged: `tile()` is
that tile, also after `setError`, and its `hash()`, `img()`, `format()`,
`type()`, `set()` return `h`, `b` (hence the same length), `f`, `t`, `s`. With
the set argument omitted `set()` returns `UINT64_MAX`, which is 2^64-1. The
instance with hash "abc123", a payload of 1024 bytes, format "png", a map type
`Satellite` and set 42 is spelled out. -/
theorem saveTile_carries_tile (h : String) (b : QByteArray) (f : String)
    (t : UrlFactory.MapType) (s : qulonglong) :
    (QGCSaveTileTask.new (some (QGCCacheTile.new h b f t (some s)))).tile =
      some (QGCCacheTile.new h b f t (some s)) ∧
    (∀ m : String,
      ((QGCSaveTileTask.new (some (QGCCacheTile.new h b f t (some s)))).setError m).tile =
        some (QGCCacheTile.new h b f t (some s))) ∧
    (QGCCacheTile.new h b f t (some s)).hash = h ∧
    (QGCCacheTile.new h b f t (some s)).img = b ∧
    (QGCCacheTile.new h b f t (some s)).img.length = b.length ∧
    (QGCCacheTile.new h b f t (some s)).format = f ∧
    (QGCCacheTile.new h b f t (some s)).type = t ∧
    (QGCCacheTile.new h b f t (some s)).set = s ∧
    (QGCCacheTile.new h b f t none).set = UINT64_MAX ∧
    UINT64_MAX.val = 2 ^ 64 - 1 ∧
    (∀ Satellite : UrlFactory.MapType,
      ((QGCSaveTileTask.new (some (QGCCacheTile.new "abc123" (List.replicate 1024 0) "png"
          Satellite (some 42)))).tile.map
        (fun c => (c.hash, c.img.length, c.format, c.type, c.set))) =
      some ("abc123", 1024, "png", Satellite, 42)) := by
  refine ⟨rfl, fun _ => rfl, rfl, rfl, rfl, rfl, rfl, rfl, rfl, by decide, ?_⟩
  intro Satellite
  simp only [QGCSaveTileTask.new, QGCSaveTileTask.tile, QGCCacheTile.new, QGCCacheTile.hash,
    QGCCacheTile.img, QGCCacheTile.format, QGCCacheTile.type, QGCCacheTile.set,
    Option.map_some', Option.getD_some, List.length_replicate]

/-- C11: a cache tile built by the hash+set constructor from `(h, s)` has
`hash() = h` and `set() = s` and carries no payload: `img()` is the empty byte
string and `format()` the empty string, whatever the storage of the object
held before. In both constructors `hash()` returns the hash given at
construction. -/
theorem cacheTile_hashSet_form (h : String) (s : qulonglong) (uninit : UrlFactory.MapType) :
    (QGCCacheTile.newHashSet h s uninit).hash = h ∧
    (QGCCacheTile.newHashSet h s uninit).set = s ∧
    (QGCCacheTile.newHashSet h s uninit).img = [] ∧
    (QGCCacheTile.newHashSet h s uninit).img.length = 0 ∧
    (QGCCacheTile.newHashSet h s uninit).format = "" ∧
    (∀ (b : QByteArray) (f : String) (t : UrlFactory.MapType) (set : Option qulonglong),
      (QGCCacheTile.new h b f t set).hash = h) :=
  ⟨rfl, rfl, rfl, rfl, rfl, fun _ _ _ _ => rfl⟩

/-! ## Tiles -/

/-- C12: a default-constructed tile is unassigned: `set()` returns
`UINT64_MAX`, the largest unsigned 64-bit value 2^64-1, `x()`, `y()` and `z()`
return 0, `hash()` the empty string and `type()` the enumerator
`UrlFactory::Invalid`. -/
theorem tile_default_constructed (Invalid : UrlFactory.MapType) :
    (QGCTile.new Invalid).set = UINT64_MAX ∧
    (QGCTile.new Invalid).set.val = 2 ^ 64 - 1 ∧
    (∀ v : qulonglong, v.val ≤ (QGCTile.new Invalid).set.val) ∧
    (QGCTile.new Invalid).x.val = 0 ∧
    (QGCTile.new Invalid).y.val = 0 ∧
    (QGCTile.new Invalid).z.val = 0 ∧
    (QGCTile.new Invalid).hash = "" ∧
    (QGCTile.new Invalid).type = Invalid := by
  have hs : (QGCTile.new Invalid).set.val = 18446744073709551615 := rfl
  refine ⟨rfl, ?_, ?_, rfl, rfl, rfl, rfl, rfl⟩
  · rw [hs]
    decide
  · intro v
    have hv := v.isLt
    omega

/-! ## Tasks without a success report -/

/-- The save-tile and update-state classes have no method but the inherited
`setError`. -/
theorem AnyTask.declares_of_fire_and_forget (t : AnyTask)
    (ht : t.variant = some Variant.SaveTile ∨
      t.variant = some Variant.UpdateTileDownloadState) (call : Call) :
    t.declares call = call.isSetError := by
  cases t <;> simp [AnyTask.variant] at ht <;> cases call <;> rfl

/-- C13: the save-tile and update-state tasks are fire-and-forget. The only
reporting method of these classes is `setError`; for every such task and
every sequence of calls of methods the class has, the sequence runs and every
signal in the trace is an `error` signal, none a success signal. -/
theorem fire_and_forget_only_errors (c : Ctor) (calls : List Call)
    (hc : c.construct.variant = some Variant.SaveTile ∨
      c.construct.variant = some Variant.UpdateTileDownloadState)
    (h : ∀ call ∈ calls, c.construct.declares call = true) :
    ∃ t, c.construct.run calls = some t ∧
      (∀ s ∈ t.emitted, s.isError = true) ∧
      (∀ s ∈ t.emitted, s.isSuccess = false) ∧
      t.emitted.countP Signal.isSuccess = 0 ∧
      (∀ call : Call, c.construct.declares call = call.isSetError) := by
  obtain ⟨t, hrun, hem, _⟩ := AnyTask.run_of_declares calls c.construct h
  obtain ⟨hlen, _, herr, _, _⟩ := AnyTask.signalsOf_mirror c.construct calls h
  rw [Ctor.construct_emitted, List.nil_append] at hem
  have hall : calls.countP Call.isSetError = calls.length := by
    rw [List.countP_eq_length]
    intro call hcall
    rw [← AnyTask.declares_of_fire_and_forget c.construct hc call]
    exact h call hcall
  have herrs : ∀ s ∈ t.emitted, s.isError = true := by
    rw [hem]
    apply List.countP_eq_length.mp
    rw [herr, hall, hlen]
  have hsucc : ∀ s ∈ t.emitted, s.isSuccess = false := by
    intro s hs
    have := herrs s hs
    cases s <;> simp_all [Signal.isError, Signal.isSuccess]
  refine ⟨t, hrun, herrs, hsucc, ?_, AnyTask.declares_of_fire_and_forget c.construct hc⟩
  rw [List.countP_eq_zero]
  intro s hs
  simp [hsucc s hs]

/-- C13 at a concrete input: an update-state task on which `setError` is
called twice. -/
theorem fire_and_forget_only_errors_witness :
    ∃ t, (Ctor.QGCUpdateTileDownloadStateTask 3 QGCTile.TyleState.StateComplete
        "abc123").construct.run [Call.setError "one", Call.setError "two"] = some t ∧
      (∀ s ∈ t.emitted, s.isError = true) ∧
      (∀ s ∈ t.emitted, s.isSuccess = false) ∧
      t.emitted.countP Signal.isSuccess = 0 ∧
      (∀ call : Call, (Ctor.QGCUpdateTileDownloadStateTask 3 QGCTile.TyleState.StateComplete
        "abc123").construct.declares call = call.isSetError) :=
  fire_and_forget_only_errors
    (Ctor.QGCUpdateTileDownloadStateTask 3 QGCTile.TyleState.StateComplete "abc123")
    [Call.setError "one", Call.setError "two"] (Or.inr rfl)
    (by
      intro call hcall
      simp only [List.mem_cons, List.mem_singleton, List.not_mem_nil, or_false] at hcall
      rcases hcall with rfl | rfl <;> rfl)

/-- C14: the update-state task only carries the request. For every set id,
state and hash the constructor builds a task whose `setID()`, `state()` and
`hash()` return exactly the arguments, so two tasks are equal exactly when
their arguments are; the four states have the values 0, 1, 2, 3 and there is
no other; a task is built for any requested state whatever state was
requested before for the same set and hash, `StatePending` after
`StateComplete` included. -/
theorem updateTileDownloadState_carries_request (setID : qulonglong)
    (state : QGCTile.TyleState) (hash : String) :
    (QGCUpdateTileDownloadStateTask.new setID state hash).setID = setID ∧
    (QGCUpdateTileDownloadStateTask.new setID state hash).state = state ∧
    (QGCUpdateTileDownloadStateTask.new setID state hash).hash = hash ∧
    (QGCUpdateTileDownloadStateTask.new setID state hash).emitted = [] ∧
    (∀ (setID1 : qulonglong) (state1 : QGCTile.TyleState) (hash1 : String),
      QGCUpdateTileDownloadStateTask.new setID1 state1 hash1 =
          QGCUpdateTileDownloadStateTask.new setID state hash ↔
        setID1 = setID ∧ state1 = state ∧ hash1 = hash) ∧
    QGCTile.TyleState.StatePending.toInt = 0 ∧
    QGCTile.TyleState.StateDownloading.toInt = 1 ∧
    QGCTile.TyleState.StateError.toInt = 2 ∧
    QGCTile.TyleState.StateComplete.toInt = 3 ∧
    Fintype.card QGCTile.TyleState = 4 ∧
    (∀ before : QGCTile.TyleState,
      (QGCUpdateTileDownloadStateTask.new setID before hash).state = before ∧
      (QGCUpdateTileDownloadStateTask.new setID state hash).state = state) ∧
    (QGCUpdateTileDownloadStateTask.new setID QGCTile.TyleState.StateComplete hash).state =
      QGCTile.TyleState.StateComplete ∧
    (QGCUpdateTileDownloadStateTask.new setID QGCTile.TyleState.StatePending hash).state =
      QGCTile.TyleState.StatePending := by
  refine ⟨rfl, rfl, rfl, rfl, ?_, rfl, rfl, rfl, rfl, rfl, fun _ => ⟨rfl, rfl⟩, rfl, rfl⟩
  intro setID1 state1 hash1
  constructor
  · intro heq
    have h1 := congrArg QGCUpdateTileDownloadStateTask.setID heq
    have h2 := congrArg QGCUpdateTileDownloadStateTask.state heq
    have h3 := congrArg QGCUpdateTileDownloadStateTask.hash heq
    exact ⟨h1, h2, h3⟩
  · rintro ⟨rfl, rfl, rfl⟩
    rfl

/-- C14 at a concrete input: a request for `StatePending` differs from a
request for `StateComplete` for the same set and hash. -/
theorem updateTileDownloadState_carries_request_witness :
    QGCUpdateTileDownloadStateTask.new 3 QGCTile.TyleState.StatePending "abc123" ≠
      QGCUpdateTileDownloadStateTask.new 3 QGCTile.TyleState.StateComplete "abc123" :=
  fun heq =>
    absurd (((updateTileDownloadState_carries_request 3 QGCTile.TyleState.StateComplete
      "abc123").2.2.2.2.1 3 QGCTile.TyleState.StatePending "abc123").mp heq).2.1 (by decide)

/-- Calls of `setError` on a save task do not change what its destructor
deletes. -/
theorem QGCSaveTileTask.destroy_foldl_setError (msgs : List String) :
    ∀ t : QGCSaveTileTask, (msgs.foldl QGCSaveTileTask.setError t).destroy = t.destroy := by
  induction msgs with
  | nil => intro t; rfl
  | cons m rest ih =>
    intro t
    rw [List.foldl_cons, ih]
    rfl

/-- C15: the destructor of a save task that holds a non-null tile deletes
that tile, once, whether or not `setError` was called before (any number of
times); the destructor of a save task that holds a null tile deletes
nothing. -/
theorem saveTile_destroy_releases_tile (tile : QGCCacheTile) (msgs : List String) :
    (QGCSaveTileTask.new (some tile)).destroy = [tile] ∧
    (msgs.foldl QGCSaveTileTask.setError (QGCSaveTileTask.new (some tile))).destroy = [tile] ∧
    ((msgs.foldl QGCSaveTileTask.setError (QGCSaveTileTask.new (some tile))).destroy).length = 1 ∧
    (QGCSaveTileTask.new none).destroy = [] ∧
    (msgs.foldl QGCSaveTileTask.setError (QGCSaveTileTask.new none)).destroy = [] ∧
    (∀ (t : QGCSaveTileTask) (m : String), (t.setError m).destroy = t.destroy) ∧
    (∀ t : QGCSaveTileTask, t.destroy = t.tile.toList) := by
  have h1 := QGCSaveTileTask.destroy_foldl_setError msgs (QGCSaveTileTask.new (some tile))
  have h2 := QGCSaveTileTask.destroy_foldl_setError msgs (QGCSaveTileTask.new none)
  refine ⟨rfl, h1, ?_, rfl, h2, fun _ _ => rfl, ?_⟩
  · rw [h1]
    rfl
  · intro t
    cases ht : t._tile <;> simp [QGCSaveTileTask.destroy, QGCSaveTileTask.tile, ht]

/-- C16: a prune task built with the amount `a`, 0 included, has
`amount() = a`; `setPruned()` emits exactly one `pruned()` signal whatever the
amount and leaves `amount()` unchanged, on the fresh task and in any state. -/
theorem pruned_reported_for_any_amount (a : qulonglong) :
    (QGCPruneCacheTask.new a).amount = a ∧
    (QGCPruneCacheTask.new a).setPruned.emitted = [Signal.pruned] ∧
    (QGCPruneCacheTask.new a).setPruned.amount = a ∧
    (QGCPruneCacheTask.new 0).amount = 0 ∧
    (QGCPruneCacheTask.new 0).setPruned.emitted = [Signal.pruned] ∧
    (∀ t : QGCPruneCacheTask,
      t.setPruned.emitted = t.emitted ++ [Signal.pruned] ∧
      t.setPruned.amount = t.amount) :=
  ⟨rfl, rfl, rfl, rfl, rfl, fun _ => ⟨rfl, rfl⟩⟩

/-- C17: on a download-list task, `setTileListFetched(L)` emits exactly one
signal, `tileListFetched` carrying `L` itself (the same elements in the same
order), and leaves `setID()` and `count()` unchanged, on the fresh task and in
any state. -/
theorem tileListFetched_carries_list (setID : qulonglong) (count : int)
    (L : List (Option QGCTile)) :
    ((QGCGetTileDownloadListTask.new setID count).setTileListFetched L).emitted =
      [Signal.tileListFetched L] ∧
    ((QGCGetTileDownloadListTask.new setID count).setTileListFetched L).setID = setID ∧
    ((QGCGetTileDownloadListTask.new setID count).setTileListFetched L).count = count ∧
    (∀ t : QGCGetTileDownloadListTask,
      (t.setTileListFetched L).emitted = t.emitted ++ [Signal.tileListFetched L] ∧
      (t.setTileListFetched L).setID = t.setID ∧
      (t.setTileListFetched L).count = t.count) ∧
    (∀ L1 : List (Option QGCTile),
      Signal.tileListFetched L1 ∈
          ((QGCGetTileDownloadListTask.new setID count).setTileListFetched L).emitted ↔
        L1 = L) := by
  refine ⟨rfl, rfl, rfl, fun _ => ⟨rfl, rfl, rfl⟩, ?_⟩
  intro L1
  have hem : ((QGCGetTileDownloadListTask.new setID count).setTileListFetched L).emitted =
      [Signal.tileListFetched L] := rfl
  rw [hem, List.mem_singleton]
  constructor
  · intro heq
    injection heq
  · rintro rfl
    rfl

/-- C17 at a concrete input: a list of two tiles in a given order is carried
in that order and not in the other. -/
theorem tileListFetched_carries_list_witness :
    Signal.tileListFetched
        [some ((QGCTile.new ⟨0⟩).setX ⟨11, by decide⟩),
          some ((QGCTile.new ⟨0⟩).setX ⟨10, by decide⟩)] ∉
      ((QGCGetTileDownloadListTask.new 42 ⟨5, by decide⟩).setTileListFetched
        [some ((QGCTile.new ⟨0⟩).setX ⟨10, by decide⟩),
          some ((QGCTile.new ⟨0⟩).setX ⟨11, by decide⟩)]).emitted :=
  fun hmem =>
    absurd
      (((tileListFetched_carries_list 42 ⟨5, by decide⟩
        [some ((QGCTile.new ⟨0⟩).setX ⟨10, by decide⟩),
          some ((QGCTile.new ⟨0⟩).setX ⟨11, by decide⟩)]).2.2.2.2
        [some ((QGCTile.new ⟨0⟩).setX ⟨11, by decide⟩),
          some ((QGCTile.new ⟨0⟩).setX ⟨10, by decide⟩)]).mp hmem)
      (by decide)

/-- C18: for every tile and every value, each setter (`setX`, `setY`, `setZ`,
`setTileSet`, `setHash`, `setType`) makes the matching getter (`x`, `y`, `z`,
`set`, `hash`, `type`) return the value and leaves the other five getters
unchanged; setting the same field twice keeps only the last value; setters of
different fields commute. -/
theorem tile_setters_getters (t : QGCTile) (a b : int) (s1 s2 : qulonglong)
    (h1 h2 : String) (ty1 ty2 : UrlFactory.MapType) :
    ((t.setX a).x = a ∧ (t.setX a).y = t.y ∧ (t.setX a).z = t.z ∧
      (t.setX a).set = t.set ∧ (t.setX a).hash = t.hash ∧ (t.setX a).type = t.type) ∧
    ((t.setY a).x = t.x ∧ (t.setY a).y = a ∧ (t.setY a).z = t.z ∧
      (t.setY a).set = t.set ∧ (t.setY a).hash = t.hash ∧ (t.setY a).type = t.type) ∧
    ((t.setZ a).x = t.x ∧ (t.setZ a).y = t.y ∧ (t.setZ a).z = a ∧
      (t.setZ a).set = t.set ∧ (t.setZ a).hash = t.hash ∧ (t.setZ a).type = t.type) ∧
    ((t.setTileSet s1).x = t.x ∧ (t.setTileSet s1).y = t.y ∧ (t.setTileSet s1).z = t.z ∧
      (t.setTileSet s1).set = s1 ∧ (t.setTileSet s1).hash = t.hash ∧ (t.setTileSet s1).type = t.type) ∧
    ((t.setHash h1).x = t.x ∧ (t.setHash h1).y = t.y ∧ (t.setHash h1).z = t.z ∧
      (t.setHash h1).set = t.set ∧ (t.setHash h1).hash = h1 ∧ (t.setHash h1).type = t.type) ∧
    ((t.setType ty1).x = t.x ∧ (t.setType ty1).y = t.y ∧ (t.setType ty1).z = t.z ∧
      (t.setType ty1).set = t.set ∧ (t.setType ty1).hash = t.hash ∧ (t.setType ty1).type = ty1) ∧
    (t.setX a).setX b = t.setX b ∧
    (t.setY a).setY b = t.setY b ∧
    (t.setZ a).setZ b = t.setZ b ∧
    (t.setTileSet s1).setTileSet s2 = t.setTileSet s2 ∧
    (t.setHash h1).setHash h2 = t.setHash h2 ∧
    (t.setType ty1).setType ty2 = t.setType ty2 ∧
    (t.setX a).setY b = (t.setY b).setX a ∧
    (t.setX a).setZ b = (t.setZ b).setX a ∧
    (t.setX a).setTileSet s1 = (t.setTileSet s1).setX a ∧
    (t.setX a).setHash h1 = (t.setHash h1).setX a ∧
    (t.setX a).setType ty1 = (t.setType ty1).setX a ∧
    (t.setY a).setZ b = (t.setZ b).setY a ∧
    (t.setY a).setTileSet s1 = (t.setTileSet s1).setY a ∧
    (t.setY a).setHash h1 = (t.setHash h1).setY a ∧
    (t.setY a).setType ty1 = (t.setType ty1).setY a ∧
    (t.setZ a).setTileSet s1 = (t.setTileSet s1).setZ a ∧
    (t.setZ a).setHash h1 = (t.setHash h1).setZ a ∧
    (t.setZ a).setType ty1 = (t.setType ty1).setZ a ∧
    (t.setTileSet s1).setHash h1 = (t.setHash h1).setTileSet s1 ∧
    (t.setTileSet s1).setType ty1 = (t.setType ty1).setTileSet s1 ∧
    (t.setHash h1).setType ty1 = (t.setType ty1).setHash h1 :=
  ⟨⟨rfl, rfl, rfl, rfl, rfl, rfl⟩, ⟨rfl, rfl, rfl, rfl, rfl, rfl⟩,
    ⟨rfl, rfl, rfl, rfl, rfl, rfl⟩, ⟨rfl, rfl, rfl, rfl, rfl, rfl⟩,
    ⟨rfl, rfl, rfl, rfl, rfl, rfl⟩, ⟨rfl, rfl, rfl, rfl, rfl, rfl⟩,
    rfl, rfl, rfl, rfl, rfl, rfl,
    rfl, rfl, rfl, rfl, rfl, rfl,
    rfl, rfl, rfl, rfl, rfl, rfl,
    rfl, rfl, rfl⟩

/-! ## The copy constructor of a tile, with object identity -/

/-- Setter calls on the object at an address run when an object lives there;
they leave that object as the setters make it, and every other object and the
extent of the store as they were. -/
theorem TileStore.callSetters_spec (setters : List QGCTile.Setter) :
    ∀ (s : TileStore) (addr : Nat) (u : QGCTile), s.read addr = some u →
      ∃ s2, s.callSetters addr setters = some s2 ∧
        s2.read addr = some (u.applyAll setters) ∧
        (∀ b, b ≠ addr → s2.read b = s.read b) ∧
        s2.length = s.length := by
  induction setters with
  | nil =>
    intro s addr u hu
    exact ⟨s, rfl, hu, fun _ _ => rfl, rfl⟩
  | cons setter rest ih =>
    intro s addr u hu
    have hlt : addr < s.length := (List.getElem?_eq_some.mp hu).1
    have hstep : s.callSetter addr setter = some (s.set addr (u.apply setter)) := by
      simp only [TileStore.callSetter, hu]
    have hread : TileStore.read (s.set addr (u.apply setter)) addr = some (u.apply setter) :=
      List.getElem?_set_self hlt
    obtain ⟨s2, hrun, hat, hother, hlen⟩ :=
      ih (s.set addr (u.apply setter)) addr (u.apply setter) hread
    refine ⟨s2, ?_, ?_, ?_, ?_⟩
    · simp only [TileStore.callSetters, hstep, Option.some_bind]
      exact hrun
    · rw [hat]
      rfl
    · intro b hb
      rw [hother b hb]
      exact List.getElem?_set_ne (Ne.symm hb)
    · rw [hlen, List.length_set]

/-- The copy constructor run on an object that lives at `other` places the
copy at the first free address and changes no object that was there. -/
theorem TileStore.copyConstruct_spec (s : TileStore) (other : Nat) (t : QGCTile)
    (ht : s.read other = some t) :
    s.copyConstruct other = some (s ++ [QGCTile.copy t], s.length) ∧
      s.length ≠ other ∧
      TileStore.read (s ++ [QGCTile.copy t]) s.length = some (QGCTile.copy t) ∧
      (∀ b, b ≠ s.length → TileStore.read (s ++ [QGCTile.copy t]) b = s.read b) := by
  have hlt : other < s.length := (List.getElem?_eq_some.mp ht).1
  refine ⟨?_, ?_, ?_, ?_⟩
  · simp only [TileStore.copyConstruct, ht]
  · omega
  · simp [TileStore.read]
  · intro b hb
    rcases Nat.lt_or_gt_of_ne hb with hlt1 | hgt
    · exact List.getElem?_append_left hlt1
    · have h1 : TileStore.read (s ++ [QGCTile.copy t]) b = none := by
        apply List.getElem?_eq_none
        simp only [List.length_append, List.length_singleton]
        omega
      have h2 : s.read b = none := List.getElem?_eq_none (by omega)
      rw [h1, h2]

/-- C19: for every tile object `t` (every tile is reached from a
default-constructed one by setter calls) living at an address `a`, the copy
constructor yields a new object at another address whose `x`, `y`, `z`,
`set`, `hash` and `type` equal those of `t`; `t` itself and every other
object are unchanged by the construction. Setters called on the copy
afterwards change the copy only: the object at `a` is still `t`. Setters
called on `t` afterwards do not change the copy either. -/
theorem tile_copy_constructor (s : TileStore) (a : Nat) (t : QGCTile)
    (setters : List QGCTile.Setter) (ht : s.read a = some t) :
    (∃ s1 c tc, s.copyConstruct a = some (s1, c) ∧ c ≠ a ∧
      s1.read c = some tc ∧
      tc.x = t.x ∧ tc.y = t.y ∧ tc.z = t.z ∧
      tc.set = t.set ∧ tc.hash = t.hash ∧ tc.type = t.type ∧
      s1.read a = some t ∧
      (∀ b, b ≠ c → s1.read b = s.read b) ∧
      (∃ s2, s1.callSetters c setters = some s2 ∧
        s2.read a = some t ∧
        s2.read c = some (tc.applyAll setters) ∧
        (∀ b, b ≠ c → s2.read b = s.read b)) ∧
      (∃ s3, s1.callSetters a setters = some s3 ∧
        s3.read a = some (t.applyAll setters) ∧
        s3.read c = some tc)) ∧
    t.copy.x = t.x ∧ t.copy.y = t.y ∧ t.copy.z = t.z ∧
    t.copy.set = t.set ∧ t.copy.hash = t.hash ∧ t.copy.type = t.type ∧
    t.copy = t ∧
    t.copy.applyAll setters = t.applyAll setters ∧
    (∀ v : int, (t.copy.setX v).x = v ∧ (t.copy.setX v).y = t.y ∧ (t.copy.setX v).z = t.z ∧
      (t.copy.setX v).set = t.set ∧ (t.copy.setX v).hash = t.hash ∧
      (t.copy.setX v).type = t.type) ∧
    (∀ v : String, (t.copy.setHash v).x = t.x ∧ (t.copy.setHash v).y = t.y ∧
      (t.copy.setHash v).z = t.z ∧ (t.copy.setHash v).set = t.set ∧
      (t.copy.setHash v).hash = v ∧ (t.copy.setHash v).type = t.type) ∧
    (∀ Invalid : UrlFactory.MapType,
      t = (QGCTile.new Invalid).applyAll
        [QGCTile.Setter.setX t.x, QGCTile.Setter.setY t.y, QGCTile.Setter.setZ t.z,
          QGCTile.Setter.setTileSet t.set, QGCTile.Setter.setHash t.hash,
          QGCTile.Setter.setType t.type]) := by
  obtain ⟨hcopy, hne, hnew, hold⟩ := TileStore.copyConstruct_spec s a t ht
  have hta : TileStore.read (s ++ [QGCTile.copy t]) a = some t := by
    rw [hold a (Ne.symm hne)]
    exact ht
  obtain ⟨s2, hrun2, hat2, hother2, _⟩ :=
    TileStore.callSetters_spec setters (s ++ [QGCTile.copy t]) s.length (QGCTile.copy t) hnew
  obtain ⟨s3, hrun3, hat3, hother3, _⟩ :=
    TileStore.callSetters_spec setters (s ++ [QGCTile.copy t]) a t hta
  refine ⟨⟨s ++ [QGCTile.copy t], s.length, QGCTile.copy t, hcopy, hne, hnew,
      rfl, rfl, rfl, rfl, rfl, rfl, hta, hold, ⟨s2, hrun2, ?_, hat2, ?_⟩, ⟨s3, hrun3, hat3, ?_⟩⟩,
    rfl, rfl, rfl, rfl, rfl, rfl, rfl, rfl, fun _ => ⟨rfl, rfl, rfl, rfl, rfl, rfl⟩,
    fun _ => ⟨rfl, rfl, rfl, rfl, rfl, rfl⟩, fun _ => rfl⟩
  · rw [hother2 a (Ne.symm hne)]
    exact hta
  · intro b hb
    rw [hother2 b hb]
    exact hold b hb
  · rw [hother3 s.length hne]
    exact hnew

/-- C19 at a concrete input: a store holding one tile with `x = 3`; the tile
is copied and `setX(5)` is called on the copy. The copy lives at another
address and has `x = 5` afterwards, the original still has `x = 3`. -/
theorem tile_copy_constructor_witness :
    ∃ s1 c s2, TileStore.copyConstruct [(QGCTile.new ⟨0⟩).setX ⟨3, by decide⟩] 0 = some (s1, c) ∧
      c ≠ 0 ∧
      s1.callSetters c [QGCTile.Setter.setX ⟨5, by decide⟩] = some s2 ∧
      s2.read 0 = some ((QGCTile.new ⟨0⟩).setX ⟨3, by decide⟩) ∧
      s2.read c = some ((QGCTile.new ⟨0⟩).setX ⟨5, by decide⟩) := by
  obtain ⟨⟨s1, c, tc, hcopy, hne, hc, hx, hy, hz, hset, hhash, htype, _, _,
      ⟨s2, hrun, horig, hcp, _⟩, _⟩, _⟩ :=
    tile_copy_constructor [(QGCTile.new ⟨0⟩).setX ⟨3, by decide⟩] 0
      ((QGCTile.new ⟨0⟩).setX ⟨3, by decide⟩) [QGCTile.Setter.setX ⟨5, by decide⟩] rfl
  refine ⟨s1, c, s2, hcopy, hne, hrun, horig, ?_⟩
  rw [hcp]
  congr 1
  cases tc
  simp only [QGCTile.x, QGCTile.y, QGCTile.z, QGCTile.set, QGCTile.hash, QGCTile.type,
    QGCTile.setX, QGCTile.new] at hx hy hz hset hhash htype
  subst hx hy hz hset hhash htype
  rfl

/-- C20: the hash+set constructor of a cache tile does not initialise `_type`,
so `type()` returns what the storage of the object held. Two cache tiles built
from the same hash "abc123" and the same set 42, in storage that held 0 and 1,
agree on `set()`, `hash()`, `img()` and `format()` and differ on `type()`; the
full-payload constructor does initialise `_type`. -/
theorem cacheTile_hashSet_type_uninitialised :
    (QGCCacheTile.newHashSet "abc123" 42 ⟨0⟩).set =
      (QGCCacheTile.newHashSet "abc123" 42 ⟨1⟩).set ∧
    (QGCCacheTile.newHashSet "abc123" 42 ⟨0⟩).hash =
      (QGCCacheTile.newHashSet "abc123" 42 ⟨1⟩).hash ∧
    (QGCCacheTile.newHashSet "abc123" 42 ⟨0⟩).img =
      (QGCCacheTile.newHashSet "abc123" 42 ⟨1⟩).img ∧
    (QGCCacheTile.newHashSet "abc123" 42 ⟨0⟩).format =
      (QGCCacheTile.newHashSet "abc123" 42 ⟨1⟩).format ∧
    (QGCCacheTile.newHashSet "abc123" 42 ⟨0⟩).type ≠
      (QGCCacheTile.newHashSet "abc123" 42 ⟨1⟩).type ∧
    (QGCCacheTile.newHashSet "abc123" 42 ⟨0⟩).type = ⟨0⟩ ∧
    (QGCCacheTile.newHashSet "abc123" 42 ⟨1⟩).type = ⟨1⟩ ∧
    (QGCCacheTile.new "abc123" [] "" ⟨7⟩ (some 42)).type = ⟨7⟩ :=
  ⟨rfl, rfl, rfl, rfl, by decide, rfl, rfl, rfl⟩
